import Mathlib

/-!
Shallow embedding of the ck-services-api repository: the Flask page service
(src/app.py) and the spreadsheet importer (src/import_sheet.py).

The database is modelled as an in-memory list of records in insertion order;
SQLAlchemy `filter_by(...).first()` becomes `List.find?`, `filter(...).all()`
becomes `List.filter`, and the unique constraint on the key triple is checked
at `flush` time against the rows visible in the current transaction.
-/

/-- One row of the office page table (`OfficePage` model in src/app.py):
an autoincrement integer id plus seven string columns. -/
structure OfficePageRec where
  id : Nat
  state_office_token : String
  area_served_token : String
  service_token : String
  meta_title : String
  meta_description : String
  page_title : String
  page_content : String
  deriving DecidableEq

/-- The office page table together with the autoincrement counter for `id`. -/
structure OfficeDB where
  nextId : Nat
  pages : List OfficePageRec
  deriving DecidableEq

/-- A JSON request body, modelled as an association list of string fields
(`request.get_json()` in src/app.py); the empty list is Python falsy `data`. -/
abbrev Body := List (String × String)

/-- Python `field in data`. -/
def bodyHas (b : Body) (f : String) : Bool :=
  b.any (fun p => p.1 == f)

/-- Python `data[field]` (first binding of the key; absent keys read ""). -/
def bodyGet (b : Body) (f : String) : String :=
  ((b.find? (fun p => p.1 == f)).map Prod.snd).getD ""

/-- The required POST body fields of `create_office_page` (src/app.py:309). -/
def required_fields : List String :=
  ["state_office_token", "area_served_token", "service_token",
   "meta_title", "meta_description", "page_title", "page_content"]

/-- A JSON response of the service: either the fixed-shape error body
`(error, message, status_code)` or one of the success payload shapes. -/
inductive ApiResponse where
  | errorBody (status : Nat) (error message : String)
  | pageObj (p : OfficePageRec)
  | pageArr (ps : List OfficePageRec)
  | createdResp (id : Nat)
  | tokenList (ts : List String)
  deriving DecidableEq

/-- HTTP status of a response. -/
def ApiResponse.status : ApiResponse → Nat
  | .errorBody s _ _ => s
  | .pageObj _ => 200
  | .pageArr _ => 200
  | .createdResp _ => 201
  | .tokenList _ => 200

/-- POST /offices handler `create_office_page` (src/app.py:295-352):
empty body check, presence check of the seven required fields, existence
pre-check on the key triple, then insert with a fresh id. -/
def create_office_page (b : Body) (db : OfficeDB) : ApiResponse × OfficeDB :=
  if b.isEmpty then
    (.errorBody 400 "Bad Request" "No JSON data provided in request body", db)
  else
    let missing := required_fields.filter (fun f => !(bodyHas b f))
    if !missing.isEmpty then
      (.errorBody 400 "Bad Request"
        ("Missing required fields: " ++ String.intercalate ", " missing), db)
    else
      match db.pages.find? (fun p =>
          p.state_office_token == bodyGet b "state_office_token" &&
          p.area_served_token == bodyGet b "area_served_token" &&
          p.service_token == bodyGet b "service_token") with
      | some _ =>
        (.errorBody 409 "Conflict"
          ("Page already exists for state_office_token: "
            ++ bodyGet b "state_office_token"
            ++ ", area_served_token: " ++ bodyGet b "area_served_token"
            ++ ", service_token: " ++ bodyGet b "service_token"), db)
      | none =>
        let newPage : OfficePageRec :=
          { id := db.nextId
            state_office_token := bodyGet b "state_office_token"
            area_served_token := bodyGet b "area_served_token"
            service_token := bodyGet b "service_token"
            meta_title := bodyGet b "meta_title"
            meta_description := bodyGet b "meta_description"
            page_title := bodyGet b "page_title"
            page_content := bodyGet b "page_content" }
        (.createdResp db.nextId,
         { nextId := db.nextId + 1, pages := db.pages ++ [newPage] })

/-- GET single page handler `get_office_page` (src/app.py:141-178):
joins state and office tokens with a slash and takes the first exact match
on the triple. -/
def get_office_page (state_token office_token area_served_token service_token : String)
    (db : OfficeDB) : ApiResponse :=
  if state_token == "" || office_token == "" ||
     area_served_token == "" || service_token == "" then
    .errorBody 400 "Bad Request"
      "All parameters (state_token, office_token, area_served_token, service_token) are required"
  else
    let state_office_token := state_token ++ "/" ++ office_token
    match db.pages.find? (fun p =>
        p.state_office_token == state_office_token &&
        p.area_served_token == area_served_token &&
        p.service_token == service_token) with
    | none =>
      .errorBody 404 "Not Found"
        ("No page found for office: " ++ state_office_token
          ++ ", area: " ++ area_served_token
          ++ ", service: " ++ service_token)
    | some p => .pageObj p

/-- SQL LIKE pattern matching with a structural fuel (every step shortens
the pattern or the string, so the fuel is never exhausted when it starts
above their combined length): `%` matches any sequence, `_` matches one
character, other characters match themselves. -/
def likeMatchAux : Nat → List Char → List Char → Bool
  | 0, _, _ => false
  | _ + 1, [], [] => true
  | _ + 1, [], _ :: _ => false
  | fuel + 1, p :: ps1, [] => p == '%' && likeMatchAux fuel ps1 []
  | fuel + 1, p :: ps1, c :: cs1 =>
      if p == '%' then likeMatchAux fuel ps1 (c :: cs1) || likeMatchAux fuel (p :: ps1) cs1
      else if p == '_' then likeMatchAux fuel ps1 cs1
      else p == c && likeMatchAux fuel ps1 cs1

/-- SQL LIKE pattern matching over character lists.  This is the semantics
of the `.like(...)` filter used in src/app.py:203. -/
def likeMatchChars (ps cs : List Char) : Bool :=
  likeMatchAux (ps.length + cs.length + 1) ps cs

/-- SQL LIKE on strings. -/
def likeMatch (pattern s : String) : Bool :=
  likeMatchChars pattern.data s.data

/-- GET /services/{state}/{area}/{service} handler `get_service_info`
(src/app.py:189-234): LIKE filter `state/%` on the combined token, exact
match on area and service; 404 on no match, single object on exactly one,
array otherwise. -/
def get_service_info (state_token area_served_token service_token : String)
    (db : OfficeDB) : ApiResponse :=
  if state_token == "" || area_served_token == "" || service_token == "" then
    .errorBody 400 "Bad Request"
      "All parameters (state_token, area_served_token, service_token) are required"
  else
    match db.pages.filter (fun p =>
        likeMatch (state_token ++ "/%") p.state_office_token &&
        p.area_served_token == area_served_token &&
        p.service_token == service_token) with
    | [] =>
      .errorBody 404 "Not Found"
        ("No service found matching state: " ++ state_token
          ++ ", area: " ++ area_served_token
          ++ ", service: " ++ service_token)
    | [p] => .pageObj p
    | ps => .pageArr ps

/-- SQL DISTINCT over a projected column, keeping first occurrences. -/
def distinctKeepFirst (l : List String) : List String :=
  l.foldl (fun acc t => if acc.contains t then acc else acc ++ [t]) []

/-- GET /sitemap-index.json handler `get_sitemap_index` (src/app.py:425-442):
distinct combined tokens, 404 with a fixed error body when there are none. -/
def get_sitemap_index (db : OfficeDB) : ApiResponse :=
  match distinctKeepFirst (db.pages.map (fun p => p.state_office_token)) with
  | [] => .errorBody 404 "Not Found" "No office pages found in the database"
  | ts => .tokenList ts

/-!
Importer model (src/import_sheet.py).

The session state during one sheet import: `committed` holds the rows the
database has committed, `txDelete` records that the initial delete-all of
`import_office_sheet`/`import_frandev_sheet` is still uncommitted in the
current transaction, and `staged` holds rows flushed but not yet committed.
`db.session.rollback()` in the per-row `except` branches uses no savepoint,
so it discards the whole current transaction: every staged row and, before
the first commit, the delete-all.
-/

/-- Python whitespace characters recognised by `str.strip()`. -/
def isPyWhitespace (c : Char) : Bool :=
  c == ' ' || c == '\t' || c == '\n' || c == '\r' || c == '\x0b' || c == '\x0c'

/-- Python `str.strip()`: drop leading and trailing whitespace. -/
def pyStrip (s : String) : String :=
  ⟨((s.data.dropWhile isPyWhitespace).reverse.dropWhile isPyWhitespace).reverse⟩

/-- Category of a recorded import failure (the `type` field of the entries
appended to `error_details` in src/import_sheet.py). -/
inductive ImportErrType where
  | emptyRequired (fields : List String)
  | duplicateKey
  | unexpected
  deriving DecidableEq

/-- One recorded import failure: the 1-indexed source row number including
the header offset (`df_idx + 2`), and its category. -/
structure ImportErr where
  row : Nat
  kind : ImportErrType
  deriving DecidableEq

/-- Sheet-specific behaviour of one import path: the names of row-level
required fields that are empty after trimming, the trimming of a row, and
the unique-constraint key of a stored row. -/
structure RowSpec (ρ : Type) where
  requiredEmpty : ρ → List String
  strip : ρ → ρ
  key : ρ → String × String × String

/-- Session and report state during one sheet import. -/
structure ImpState (ρ : Type) where
  committed : List ρ
  txDelete : Bool
  staged : List ρ
  successCount : Nat
  errorCount : Nat
  errors : List ImportErr
  deriving DecidableEq

/-- The rows visible to a uniqueness check at flush time: the committed rows
unless the pending delete-all covers them, plus the staged rows. -/
def visible {ρ : Type} (s : ImpState ρ) : List ρ :=
  (if s.txDelete then [] else s.committed) ++ s.staged

/-- Processing of one source row (the body of the `for df_idx, row in
batch.iterrows()` loop, src/import_sheet.py:165-235): empty-required-field
rows are recorded and skipped with no session operation; otherwise the
trimmed row is staged and flushed, and a key collision with any visible row
raises `IntegrityError`, whose handler rolls back the whole current
transaction and records a duplicate-key failure. -/
def processRow {ρ : Type} (sp : RowSpec ρ) (s : ImpState ρ) (ir : Nat × ρ) : ImpState ρ :=
  let sheetRowNum := ir.1 + 2
  let empt := sp.requiredEmpty ir.2
  if !empt.isEmpty then
    { s with errorCount := s.errorCount + 1,
             errors := s.errors ++ [⟨sheetRowNum, ImportErrType.emptyRequired empt⟩] }
  else
    let pr := sp.strip ir.2
    if (visible s).any (fun q => decide (sp.key q = sp.key pr)) then
      { s with staged := [], txDelete := false,
               errorCount := s.errorCount + 1,
               errors := s.errors ++ [⟨sheetRowNum, ImportErrType.duplicateKey⟩] }
    else
      { s with staged := s.staged ++ [pr], successCount := s.successCount + 1 }

/-- `db.session.commit()` at the end of a batch: the current transaction
(pending delete-all and staged inserts) becomes committed. -/
def commitBatch {ρ : Type} (s : ImpState ρ) : ImpState ρ :=
  { s with committed := (if s.txDelete then [] else s.committed) ++ s.staged,
           txDelete := false, staged := [] }

/-- Chunking loop with a structural fuel; the fuel is never exhausted when
it starts at the length of the list. -/
def batchesAux {α : Type} : Nat → List α → List (List α)
  | _, [] => []
  | 0, a :: l1 => [a :: l1]
  | fuel + 1, a :: l1 => ((a :: l1).take 50) :: batchesAux fuel ((a :: l1).drop 50)

/-- Positional chunks of 50 rows (`batch_size = 50`, `df.iloc[start:end]`). -/
def batches {α : Type} (l : List α) : List (List α) :=
  batchesAux l.length l

/-- `deduplicate_data` (src/import_sheet.py:69-106) on an indexed row list:
`df.drop_duplicates()` keeps the first occurrence of each fully-equal row and
preserves the original row indices. -/
def enumDedup {ρ : Type} [DecidableEq ρ] (rows : List ρ) : List (Nat × ρ) :=
  rows.enum.foldl
    (fun acc p => if acc.any (fun q => decide (q.2 = p.2)) then acc else acc ++ [p]) []

/-- One sheet import (the shared shape of `import_office_sheet` and
`import_frandev_sheet`, src/import_sheet.py:108-263 and 265-420): dedup, a
delete-all opening the first transaction, then per-batch row processing and
a commit per batch.  The final table contents are `(importRun ...).committed`
(an uncommitted leftover delete-all is rolled back at session teardown). -/
def importRun {ρ : Type} [DecidableEq ρ] (sp : RowSpec ρ) (initial rows : List ρ) :
    ImpState ρ :=
  (batches (enumDedup rows)).foldl
    (fun s b => commitBatch (b.foldl (processRow sp) s))
    { committed := initial, txDelete := true, staged := [],
      successCount := 0, errorCount := 0, errors := [] }

/-- One source row of the office sheet: the seven required columns of
`import_office_sheet` (src/import_sheet.py:120-123), cell values as strings
with missing cells read as "". -/
structure OfficeRow where
  state_office_token : String
  area_served_token : String
  service_token : String
  meta_title : String
  meta_description : String
  page_title : String
  page_content : String
  deriving DecidableEq

/-- The required office columns with their accessors, in source order. -/
def officeRequiredColumns : List (String × (OfficeRow → String)) :=
  [("state_office_token", OfficeRow.state_office_token),
   ("area_served_token", OfficeRow.area_served_token),
   ("service_token", OfficeRow.service_token),
   ("meta_title", OfficeRow.meta_title),
   ("meta_description", OfficeRow.meta_description),
   ("page_title", OfficeRow.page_title),
   ("page_content", OfficeRow.page_content)]

/-- `str(row[field]).strip()` applied to every column of an office row. -/
def OfficeRow.strip (r : OfficeRow) : OfficeRow :=
  ⟨pyStrip r.state_office_token, pyStrip r.area_served_token, pyStrip r.service_token,
   pyStrip r.meta_title, pyStrip r.meta_description, pyStrip r.page_title, pyStrip r.page_content⟩

/-- The office import path: all seven columns are required non-empty per row
(src/import_sheet.py:171-175), and the unique constraint is the token triple
(src/app.py:52-54). -/
def officeSpec : RowSpec OfficeRow :=
  { requiredEmpty := fun r =>
      (officeRequiredColumns.filter (fun p => (pyStrip (p.2 r)) == "")).map Prod.fst
    strip := OfficeRow.strip
    key := fun r => (r.state_office_token, r.area_served_token, r.service_token) }

/-- `import_office_sheet` run against an initial table state. -/
def import_office_sheet (initial rows : List OfficeRow) : ImpState OfficeRow :=
  importRun officeSpec initial rows

/-- One source row of the Fran Dev sheet: the eight required columns of
`import_frandev_sheet` (src/import_sheet.py:277-280). -/
structure FrandevRow where
  state_token : String
  city_token : String
  clai_page_token : String
  meta_title : String
  meta_description : String
  page_title : String
  page_content : String
  link_label : String
  deriving DecidableEq

/-- `str(row[field]).strip()` applied to every column of a Frandev row
(the content columns fall back to "" when falsy, which trims the same). -/
def FrandevRow.strip (r : FrandevRow) : FrandevRow :=
  ⟨pyStrip r.state_token, pyStrip r.city_token, pyStrip r.clai_page_token,
   pyStrip r.meta_title, pyStrip r.meta_description, pyStrip r.page_title,
   pyStrip r.page_content, pyStrip r.link_label⟩

/-- The Frandev import path: only the three key columns are checked for
emptiness per row (src/import_sheet.py:330), and the unique constraint is
the (state_token, city_token, clai_page_token) triple
(src/create_frandev_table.py:29). -/
def frandevSpec : RowSpec FrandevRow :=
  { requiredEmpty := fun r =>
      ([("state_token", FrandevRow.state_token),
        ("city_token", FrandevRow.city_token),
        ("clai_page_token", FrandevRow.clai_page_token)].filter
          (fun p => (pyStrip (p.2 r)) == "")).map Prod.fst
    strip := FrandevRow.strip
    key := fun r => (r.state_token, r.city_token, r.clai_page_token) }

/-- `import_frandev_sheet` run against an initial table state. -/
def import_frandev_sheet (initial rows : List FrandevRow) : ImpState FrandevRow :=
  importRun frandevSpec initial rows

/-- The aggregate totals computed by `print_final_summary`
(src/import_sheet.py:424-425). -/
structure FinalSummary where
  totalSuccess : Nat
  totalErrors : Nat
  deriving DecidableEq

/-- `print_final_summary` totals over the two per-sheet reports. -/
def print_final_summary {ρ σ : Type} (office : ImpState ρ) (frandev : ImpState σ) :
    FinalSummary :=
  { totalSuccess := office.successCount + frandev.successCount
    totalErrors := office.errorCount + frandev.errorCount }

/-- One full importer run (src/import_sheet.py:463-498): the office sheet
and then the independently-shaped Frandev sheet, followed by the aggregate
summary over both reports. -/
def fullImportRun (officeInit officeRows : List OfficeRow)
    (frandevInit frandevRows : List FrandevRow) :
    ImpState OfficeRow × ImpState FrandevRow × FinalSummary :=
  let o := import_office_sheet officeInit officeRows
  let f := import_frandev_sheet frandevInit frandevRows
  (o, f, print_final_summary o f)

/-- `import_sheet_to_db` (src/import_sheet.py:463-498) at the level of run
outcomes: a missing GOOGLE_API_KEY raises before any import; otherwise each
sheet import is attempted, any exception flips the overall flag, and the
flag is returned. -/
def import_sheet_to_db (api_key : Option String) (officeOk frandevOk : Bool) :
    Except String Bool :=
  match api_key with
  | none => Except.error "GOOGLE_API_KEY environment variable is not set"
  | some _ => Except.ok (officeOk && frandevOk)

/-- The `__main__` block of src/import_sheet.py:500-501 calls
`import_sheet_to_db()` and discards its return value, so the process exits 0
on normal termination and non-zero only on an uncaught exception. -/
def mainExitCode (api_key : Option String) (officeOk frandevOk : Bool) : Nat :=
  match import_sheet_to_db api_key officeOk frandevOk with
  | Except.error _ => 1
  | Except.ok _ => 0

/-- The trimmed rows of an indexed row list that pass the row-level
required-field emptiness check, in order. -/
def passStrips {ρ : Type} (sp : RowSpec ρ) (l : List (Nat × ρ)) : List ρ :=
  (l.filter (fun p => (sp.requiredEmpty p.2).isEmpty)).map (fun p => sp.strip p.2)

/-- The empty-required-field failure entries for an indexed row list. -/
def failEntries {ρ : Type} (sp : RowSpec ρ) (l : List (Nat × ρ)) : List ImportErr :=
  (l.filter (fun p => !(sp.requiredEmpty p.2).isEmpty)).map
    (fun p => ⟨p.1 + 2, ImportErrType.emptyRequired (sp.requiredEmpty p.2)⟩)

/-- The match set of the service-lookup claim, written from the spec words:
records whose combined token begins with the given region followed by the
separator, with exact match on area and service. -/
def prefixTripleMatches (state_token area_served_token service_token : String)
    (db : OfficeDB) : List OfficePageRec :=
  db.pages.filter (fun p =>
    List.isPrefixOf (state_token ++ "/").data p.state_office_token.data &&
    p.area_served_token == area_served_token &&
    p.service_token == service_token)

/-- Source table for the C1 counterexample: four rows, no exact duplicates,
rows 3 and 4 collide on the key triples of rows 2 and 1 respectively. -/
def c1Rows : List OfficeRow :=
  [⟨"t1", "a", "s", "mt", "md", "pt", "c1"⟩,
   ⟨"t2", "a", "s", "mt", "md", "pt", "c2"⟩,
   ⟨"t2", "a", "s", "mt", "md", "pt", "c3"⟩,
   ⟨"t1", "a", "s", "mt", "md", "pt", "c4"⟩]

/-- Source table for the C2 counterexample: two rows with the same key
triple but different content. -/
def c2Rows : List OfficeRow :=
  [⟨"t1", "a", "s", "mt", "md", "pt", "c1"⟩,
   ⟨"t1", "a", "s", "mt", "md", "pt", "c2"⟩]

/-- Frandev source row with non-empty key columns but empty content
columns, for the C9 counterexample. -/
def c9FrRow : FrandevRow := ⟨"st", "ci", "pg", "", "", "", "", ""⟩

/-- POST body with all seven required fields present but `meta_title` the
empty string, for the C4 counterexample. -/
def c4Body : Body :=
  [("state_office_token", "tx/houston"), ("area_served_token", "midtown"),
   ("service_token", "care"), ("meta_title", ""), ("meta_description", "D"),
   ("page_title", "P"), ("page_content", "C")]

/-- POST body with only one of the seven required fields, for the C4
witness. -/
def c4MissingBody : Body := [("state_office_token", "tx/houston")]

/-- Valid POST body (the example of spec section 8), for the C5 and C6
witnesses. -/
def c6Body : Body :=
  [("state_office_token", "tx/houston"), ("area_served_token", "midtown"),
   ("service_token", "care"), ("meta_title", "T"), ("meta_description", "D"),
   ("page_title", "P"), ("page_content", "C")]

/-- Database with two pages matching region "tx", area "mid", service
"care", for the C7 witness. -/
def c7DB : OfficeDB :=
  ⟨3, [⟨1, "tx/houston", "mid", "care", "T", "D", "P", "C"⟩,
       ⟨2, "tx/austin", "mid", "care", "T2", "D2", "P2", "C2"⟩]⟩

/-- Office source table whose second row has an empty required field, for
the C9 witness. -/
def c9OfficeRows : List OfficeRow :=
  [⟨"t1", "a", "s", "mt", "md", "pt", "c"⟩,
   ⟨"", "a", "s", "mt", "md", "pt", "c"⟩,
   ⟨"t2", "a", "s", "mt", "md", "pt", "c"⟩]

/-- Frandev source table with one empty-key row among valid rows, for the
C9 witness. -/
def c9FrRows : List FrandevRow :=
  [⟨"st", "ci", "pg", "m", "d", "p", "c", "l"⟩,
   ⟨"", "ci", "pg", "m", "d", "p", "c", "l"⟩,
   ⟨"st2", "ci", "pg", "m", "d", "p", "c", "l"⟩]

/-- C10: when the page table contains no records, an authenticated GET
/sitemap-index.json returns status 404 with the fixed error body rather
than an empty array. -/
theorem C10_sitemap_index_empty_404 (db : OfficeDB) (h : db.pages = []) :
    get_sitemap_index db =
      ApiResponse.errorBody 404 "Not Found" "No office pages found in the database" := by
  simp [get_sitemap_index, h, distinctKeepFirst]

/-- Witness for C10 at the empty database. -/
theorem C10_sitemap_index_empty_404_witness :
    (⟨0, []⟩ : OfficeDB).pages = [] ∧
    get_sitemap_index ⟨0, []⟩ =
      ApiResponse.errorBody 404 "Not Found" "No office pages found in the database" :=
  ⟨rfl, C10_sitemap_index_empty_404 ⟨0, []⟩ rfl⟩

/-- C1 counterexample: for the four-row source table `c1Rows` with N = 4
total rows, K = 0 exact duplicates and M = 2 key-triple collisions, the
claim predicts 2 successes, 2 duplicate-key failures and 2 final table
rows; the code reports 3 successes and 1 duplicate-key failure and leaves
1 table row, because the rollback on the first collision also discards the
two rows staged earlier in the batch, after which the second colliding row
no longer conflicts. -/
theorem C1_import_counts_diverge :
    (enumDedup c1Rows).length = c1Rows.length ∧
    (import_office_sheet [] c1Rows).successCount = 3 ∧
    (import_office_sheet [] c1Rows).errorCount = 1 ∧
    (import_office_sheet [] c1Rows).errors = [⟨4, ImportErrType.duplicateKey⟩] ∧
    (import_office_sheet [] c1Rows).committed =
      [⟨"t1", "a", "s", "mt", "md", "pt", "c4"⟩] := by decide

/-- C2 counterexample: in `c2Rows` the first row is staged successfully and
counted as a success, the second row raises the duplicate-key violation
(recorded with original source row number 3), and the rollback discards the
first row's staged insert as well, so the committed table is empty even
though the claim says every other successfully staged row of the batch
survives. -/
theorem C2_rollback_discards_earlier_staged_row :
    (import_office_sheet [] c2Rows).successCount = 1 ∧
    (import_office_sheet [] c2Rows).errors = [⟨3, ImportErrType.duplicateKey⟩] ∧
    (import_office_sheet [] c2Rows).committed = [] := by decide

/-- C3 counterexample: when the office import fails, `import_sheet_to_db`
returns the overall success indicator False, yet the standalone entry point
discards the return value and the process exit status is 0, not non-zero as
the claim states. -/
theorem C3_exit_zero_despite_failure :
    import_sheet_to_db (some "k") false true = Except.ok false ∧
    mainExitCode (some "k") false true = 0 :=
  ⟨rfl, rfl⟩

/-- C3 amended: `import_sheet_to_db` returns the aggregate success
indicator (the conjunction of both sheet outcomes), but the process exit
status of the standalone entry point is 0 whenever setup succeeds,
regardless of that indicator; only an uncaught setup failure (missing
GOOGLE_API_KEY) exits non-zero. -/
theorem C3_exit_status_amended (k : String) (officeOk frandevOk : Bool) :
    import_sheet_to_db (some k) officeOk frandevOk = Except.ok (officeOk && frandevOk) ∧
    mainExitCode (some k) officeOk frandevOk = 0 ∧
    mainExitCode none officeOk frandevOk = 1 :=
  ⟨rfl, rfl, rfl⟩

/-- C8: every full importer run imports the office table and then the
independently-shaped Frandev table, and the final summary totals are the
sums of the two per-sheet success and error counts. -/
theorem C8_dual_import_aggregate (officeInit officeRows : List OfficeRow)
    (frandevInit frandevRows : List FrandevRow) :
    fullImportRun officeInit officeRows frandevInit frandevRows =
      (import_office_sheet officeInit officeRows,
       import_frandev_sheet frandevInit frandevRows,
       ⟨(import_office_sheet officeInit officeRows).successCount
          + (import_frandev_sheet frandevInit frandevRows).successCount,
        (import_office_sheet officeInit officeRows).errorCount
          + (import_frandev_sheet frandevInit frandevRows).errorCount⟩) :=
  rfl

/-- C4 counterexample: a POST body with all seven required fields present
but `meta_title` equal to the empty string passes validation: the response
is 201 and a record is inserted, not the 400 with no insertion that the
claim states for a body with an empty required field. -/
theorem C4_present_but_empty_field_accepted :
    bodyHas c4Body "meta_title" = true ∧
    bodyGet c4Body "meta_title" = "" ∧
    (create_office_page c4Body ⟨0, []⟩).1 = ApiResponse.createdResp 0 ∧
    (create_office_page c4Body ⟨0, []⟩).2.pages.length = 1 := by decide

/-- C4 amended: a non-empty POST body missing any of the seven required
fields gets a 400 response whose message names exactly the missing fields,
and no record is inserted; field presence is the only check performed, so a
field present with an empty value is accepted (see the counterexample), and
a fully empty body gets a generic 400 instead. -/
theorem C4_missing_fields_rejected (b : Body) (db : OfficeDB)
    (hne : b ≠ [])
    (hmiss : required_fields.filter (fun f => !(bodyHas b f)) ≠ []) :
    create_office_page b db =
      (ApiResponse.errorBody 400 "Bad Request"
        ("Missing required fields: " ++
          String.intercalate ", " (required_fields.filter (fun f => !(bodyHas b f)))), db) := by
  have hb : b.isEmpty = false := by simp [List.isEmpty_iff, hne]
  have hm : (required_fields.filter (fun f => !(bodyHas b f))).isEmpty = false := by
    simp [List.isEmpty_iff, hmiss]
  simp [create_office_page, hb, hm]

/-- Witness for C4 amended at a body carrying only the combined token. -/
theorem C4_missing_fields_rejected_witness :
    c4MissingBody ≠ [] ∧
    required_fields.filter (fun f => !(bodyHas c4MissingBody f)) ≠ [] ∧
    create_office_page c4MissingBody ⟨0, []⟩ =
      (ApiResponse.errorBody 400 "Bad Request"
        ("Missing required fields: " ++
          String.intercalate ", "
            (required_fields.filter (fun f => !(bodyHas c4MissingBody f)))), ⟨0, []⟩) :=
  ⟨by decide, by decide,
   C4_missing_fields_rejected c4MissingBody ⟨0, []⟩ (by decide) (by decide)⟩

/-- C5: for every database state and every create request that carries all
seven required fields and whose key triple equals an existing record's
triple, the response is 409 and the database is unchanged. -/
theorem C5_duplicate_triple_conflict (b : Body) (db : OfficeDB) (p : OfficePageRec)
    (hall : ∀ f ∈ required_fields, bodyHas b f = true)
    (hp : p ∈ db.pages)
    (h1 : p.state_office_token = bodyGet b "state_office_token")
    (h2 : p.area_served_token = bodyGet b "area_served_token")
    (h3 : p.service_token = bodyGet b "service_token") :
    (create_office_page b db).1.status = 409 ∧ (create_office_page b db).2 = db := by
  have hb : b.isEmpty = false := by
    cases b with
    | nil =>
      have := hall "state_office_token" (by simp [required_fields])
      simp [bodyHas] at this
    | cons x xs => rfl
  have hm : (required_fields.filter (fun f => !(bodyHas b f))).isEmpty = true := by
    simp only [List.isEmpty_iff]
    rw [List.filter_eq_nil_iff]
    intro f hf
    simp [hall f hf]
  have hfind : (db.pages.find? (fun q =>
      q.state_office_token == bodyGet b "state_office_token" &&
      q.area_served_token == bodyGet b "area_served_token" &&
      q.service_token == bodyGet b "service_token")).isSome := by
    rw [List.find?_isSome]
    exact ⟨p, hp, by simp [h1, h2, h3]⟩
  obtain ⟨q, hq⟩ := Option.isSome_iff_exists.mp hfind
  simp [create_office_page, hb, hm, hq, ApiResponse.status]

/-- Witness for C5: creating the spec section 8 example body on a database
already holding a record with the same triple. -/
theorem C5_duplicate_triple_conflict_witness :
    (create_office_page c6Body
        ⟨8, [⟨7, "tx/houston", "midtown", "care", "T0", "D0", "P0", "C0"⟩]⟩).1.status = 409 ∧
    (create_office_page c6Body
        ⟨8, [⟨7, "tx/houston", "midtown", "care", "T0", "D0", "P0", "C0"⟩]⟩).2 =
      ⟨8, [⟨7, "tx/houston", "midtown", "care", "T0", "D0", "P0", "C0"⟩]⟩ :=
  C5_duplicate_triple_conflict c6Body
    ⟨8, [⟨7, "tx/houston", "midtown", "care", "T0", "D0", "P0", "C0"⟩]⟩
    ⟨7, "tx/houston", "midtown", "care", "T0", "D0", "P0", "C0"⟩
    (by decide) (by simp) (by decide) (by decide) (by decide)

/-- C6: a valid create via POST /offices (all seven fields present, triple
not yet in the table, tokens non-empty and the combined token splitting as
state/office) followed by a fetch of the single-page endpoint with the same
triple returns exactly the submitted seven field values together with the
identifier assigned at creation. -/
theorem C6_create_then_fetch (b : Body) (db : OfficeDB) (s o a v : String)
    (hall : ∀ f ∈ required_fields, bodyHas b f = true)
    (hnew : ∀ p ∈ db.pages,
      ¬(p.state_office_token = bodyGet b "state_office_token" ∧
        p.area_served_token = bodyGet b "area_served_token" ∧
        p.service_token = bodyGet b "service_token"))
    (hs : s ≠ "") (ho : o ≠ "") (ha : a ≠ "") (hv : v ≠ "")
    (hsot : s ++ "/" ++ o = bodyGet b "state_office_token")
    (hat : a = bodyGet b "area_served_token")
    (hvt : v = bodyGet b "service_token") :
    (create_office_page b db).1 = ApiResponse.createdResp db.nextId ∧
    get_office_page s o a v (create_office_page b db).2 =
      ApiResponse.pageObj
        ⟨db.nextId, bodyGet b "state_office_token", bodyGet b "area_served_token",
         bodyGet b "service_token", bodyGet b "meta_title", bodyGet b "meta_description",
         bodyGet b "page_title", bodyGet b "page_content"⟩ := by
  have hb : b.isEmpty = false := by
    cases b with
    | nil =>
      have := hall "state_office_token" (by simp [required_fields])
      simp [bodyHas] at this
    | cons x xs => rfl
  have hm : (required_fields.filter (fun f => !(bodyHas b f))).isEmpty = true := by
    simp only [List.isEmpty_iff]
    rw [List.filter_eq_nil_iff]
    intro f hf
    simp [hall f hf]
  have hnone : db.pages.find? (fun q =>
      q.state_office_token == bodyGet b "state_office_token" &&
      q.area_served_token == bodyGet b "area_served_token" &&
      q.service_token == bodyGet b "service_token") = none := by
    rw [List.find?_eq_none]
    intro q hq
    simp only [Bool.and_eq_true, beq_iff_eq]
    rintro ⟨⟨u1, u2⟩, u3⟩
    exact hnew q hq ⟨u1, u2, u3⟩
  have hc : create_office_page b db =
      (ApiResponse.createdResp db.nextId,
       ⟨db.nextId + 1, db.pages ++
        [⟨db.nextId, bodyGet b "state_office_token", bodyGet b "area_served_token",
          bodyGet b "service_token", bodyGet b "meta_title", bodyGet b "meta_description",
          bodyGet b "page_title", bodyGet b "page_content"⟩]⟩) := by
    simp [create_office_page, hb, hm, hnone]
  refine ⟨by rw [hc], ?_⟩
  rw [hc]
  subst hat
  subst hvt
  rw [← hsot] at hnone
  rw [← hsot]
  simp only [get_office_page]
  rw [if_neg (by simp [hs, ho, ha, hv])]
  rw [List.find?_append, hnone, Option.none_or]
  simp [List.find?]

/-- Witness for C6: the spec section 8 example round trip. -/
theorem C6_create_then_fetch_witness :
    (create_office_page c6Body ⟨5, []⟩).1 = ApiResponse.createdResp 5 ∧
    get_office_page "tx" "houston" "midtown" "care" (create_office_page c6Body ⟨5, []⟩).2 =
      ApiResponse.pageObj ⟨5, "tx/houston", "midtown", "care", "T", "D", "P", "C"⟩ :=
  C6_create_then_fetch c6Body ⟨5, []⟩ "tx" "houston" "midtown" "care"
    (by decide) (by simp) (by decide) (by decide) (by decide) (by decide) rfl rfl rfl

/-- Unfolding of `passStrips` on a cons cell. -/
theorem passStrips_cons {ρ : Type} (sp : RowSpec ρ) (p : Nat × ρ) (l : List (Nat × ρ)) :
    passStrips sp (p :: l) =
      if (sp.requiredEmpty p.2).isEmpty then sp.strip p.2 :: passStrips sp l
      else passStrips sp l := by
  by_cases h : (sp.requiredEmpty p.2).isEmpty <;> simp [passStrips, List.filter_cons, h]

/-- Unfolding of `failEntries` on a cons cell. -/
theorem failEntries_cons {ρ : Type} (sp : RowSpec ρ) (p : Nat × ρ) (l : List (Nat × ρ)) :
    failEntries sp (p :: l) =
      if (sp.requiredEmpty p.2).isEmpty then failEntries sp l
      else ⟨p.1 + 2, ImportErrType.emptyRequired (sp.requiredEmpty p.2)⟩ :: failEntries sp l := by
  by_cases h : (sp.requiredEmpty p.2).isEmpty <;> simp [failEntries, List.filter_cons, h]

/-- The passing strips of a split row list. -/
theorem passStrips_append {ρ : Type} (sp : RowSpec ρ) (l1 l2 : List (Nat × ρ)) :
    passStrips sp (l1 ++ l2) = passStrips sp l1 ++ passStrips sp l2 := by
  simp [passStrips, List.filter_append]

/-- The failure entries of a split row list. -/
theorem failEntries_append {ρ : Type} (sp : RowSpec ρ) (l1 l2 : List (Nat × ρ)) :
    failEntries sp (l1 ++ l2) = failEntries sp l1 ++ failEntries sp l2 := by
  simp [failEntries, List.filter_append]

/-- Committing a batch does not change the rows visible to a flush. -/
theorem visible_commitBatch {ρ : Type} (s : ImpState ρ) :
    visible (commitBatch s) = visible s := by
  simp [visible, commitBatch]

/-- Processing one batch from a state whose visible rows and incoming
passing rows have pairwise distinct keys: no flush conflicts, so every
passing row is staged in order, and every empty-required row is recorded
as a failure without touching the session. -/
theorem foldProcess_no_conflict {ρ : Type} (sp : RowSpec ρ) (l : List (Nat × ρ)) :
    ∀ (s : ImpState ρ),
    ((visible s ++ passStrips sp l).map sp.key).Nodup →
    l.foldl (processRow sp) s =
      { s with staged := s.staged ++ passStrips sp l,
               successCount := s.successCount + (passStrips sp l).length,
               errorCount := s.errorCount + (failEntries sp l).length,
               errors := s.errors ++ failEntries sp l } := by
  induction l with
  | nil =>
    intro s h
    simp [passStrips, failEntries]
  | cons p l1 ih =>
    intro s h
    rw [List.foldl_cons]
    by_cases hp : (sp.requiredEmpty p.2).isEmpty
    · -- passing row: staged after a successful flush
      rw [passStrips_cons, if_pos hp] at h
      rw [passStrips_cons, if_pos hp, failEntries_cons, if_pos hp]
      have hdisj : List.Disjoint ((visible s).map sp.key)
          ((sp.strip p.2 :: passStrips sp l1).map sp.key) := by
        have h2 := List.nodup_append.mp (by rw [← List.map_append]; exact h)
        exact h2.2.2
      have hany : ((visible s).any (fun q => decide (sp.key q = sp.key (sp.strip p.2)))) = false := by
        rw [List.any_eq_false]
        intro q hq
        simp only [decide_eq_true_eq]
        intro hkey
        exact hdisj (List.mem_map_of_mem sp.key hq) (by simp [hkey])
      have hstep : processRow sp s p =
          { s with staged := s.staged ++ [sp.strip p.2],
                   successCount := s.successCount + 1 } := by
        simp [processRow, hp, hany]
      rw [hstep]
      have hnd2 : ((visible { s with staged := s.staged ++ [sp.strip p.2],
                                     successCount := s.successCount + 1 }
          ++ passStrips sp l1).map sp.key).Nodup := by
        simp only [visible, ImpState.mk.injEq]
        rw [List.append_assoc (if s.txDelete then [] else s.committed), List.append_assoc]
        simpa [visible, List.append_assoc] using h
      rw [ih _ hnd2]
      simp [List.append_assoc, Nat.add_assoc, Nat.add_comm 1]
    · -- empty-required row: recorded, no session operation
      rw [passStrips_cons, if_neg hp] at h
      rw [passStrips_cons, if_neg hp, failEntries_cons, if_neg hp]
      have hstep : processRow sp s p =
          { s with errorCount := s.errorCount + 1,
                   errors := s.errors ++
                     [⟨p.1 + 2, ImportErrType.emptyRequired (sp.requiredEmpty p.2)⟩] } := by
        simp [processRow, hp]
      rw [hstep]
      have hnd2 : ((visible { s with errorCount := s.errorCount + 1,
                                     errors := s.errors ++
                                       [⟨p.1 + 2, ImportErrType.emptyRequired (sp.requiredEmpty p.2)⟩] }
          ++ passStrips sp l1).map sp.key).Nodup := by
        simp only [visible]
        exact h
      rw [ih _ hnd2]
      simp [List.append_assoc, Nat.add_assoc, Nat.add_comm 1]

/-- The chunking fuel is irrelevant once it dominates the list length. -/
theorem batchesAux_congr {α : Type} (f1 : Nat) :
    ∀ (f2 : Nat) (l : List α), l.length ≤ f1 → l.length ≤ f2 →
    batchesAux f1 l = batchesAux f2 l := by
  induction f1 with
  | zero =>
    intro f2 l h1 h2
    have hl : l = [] := List.eq_nil_of_length_eq_zero (Nat.le_zero.mp h1)
    subst hl
    cases f2 <;> rfl
  | succ f ih =>
    intro f2 l h1 h2
    cases l with
    | nil => cases f2 <;> rfl
    | cons a l1 =>
      cases f2 with
      | zero => simp at h2
      | succ g =>
        simp only [batchesAux]
        congr 1
        apply ih
        · simp only [List.length_drop, List.length_cons]
          simp only [List.length_cons] at h1
          omega
        · simp only [List.length_drop, List.length_cons]
          simp only [List.length_cons] at h2
          omega

/-- Unfolding of `batches` on a non-empty list. -/
theorem batches_cons {α : Type} (a : α) (l1 : List α) :
    batches (a :: l1) = (a :: l1).take 50 :: batches ((a :: l1).drop 50) := by
  show batchesAux (a :: l1).length (a :: l1) = _
  simp only [List.length_cons, batchesAux]
  congr 1
  apply batchesAux_congr
  · simp only [List.length_drop, List.length_cons]
    omega
  · exact Nat.le_refl _

/-- The whole batch loop under pairwise distinct keys: every batch commits
exactly its staged passing rows, so the final state accumulates all
passing rows in order and all empty-required failures. -/
theorem runBatches_no_conflict {ρ : Type} (sp : RowSpec ρ) :
    ∀ (n : Nat) (l : List (Nat × ρ)) (s : ImpState ρ), l.length ≤ n → l ≠ [] →
    ((visible s ++ passStrips sp l).map sp.key).Nodup →
    (batches l).foldl (fun s2 b => commitBatch (b.foldl (processRow sp) s2)) s =
      { committed := visible s ++ passStrips sp l,
        txDelete := false, staged := [],
        successCount := s.successCount + (passStrips sp l).length,
        errorCount := s.errorCount + (failEntries sp l).length,
        errors := s.errors ++ failEntries sp l } := by
  intro n
  induction n with
  | zero =>
    intro l s hlen hne _
    cases l with
    | nil => exact absurd rfl hne
    | cons p l1 => simp at hlen
  | succ n ih =>
    intro l s hlen hne hnodup
    cases l with
    | nil => exact absurd rfl hne
    | cons p l1 =>
      rw [batches_cons, List.foldl_cons]
      have hsplit : (p :: l1).take 50 ++ (p :: l1).drop 50 = p :: l1 :=
        List.take_append_drop 50 (p :: l1)
      have hps : passStrips sp (p :: l1) =
          passStrips sp ((p :: l1).take 50) ++ passStrips sp ((p :: l1).drop 50) := by
        rw [← passStrips_append, hsplit]
      have hfe : failEntries sp (p :: l1) =
          failEntries sp ((p :: l1).take 50) ++ failEntries sp ((p :: l1).drop 50) := by
        rw [← failEntries_append, hsplit]
      have hnodup2 : ((visible s ++ (passStrips sp ((p :: l1).take 50)
          ++ passStrips sp ((p :: l1).drop 50))).map sp.key).Nodup := by
        rw [← hps]
        exact hnodup
      have h1 : ((visible s ++ passStrips sp ((p :: l1).take 50)).map sp.key).Nodup := by
        apply List.Nodup.sublist _ hnodup2
        apply List.Sublist.map
        rw [← List.append_assoc]
        exact List.sublist_append_left _ _
      rw [foldProcess_no_conflict sp _ s h1]
      generalize hg : commitBatch
          { s with staged := s.staged ++ passStrips sp ((p :: l1).take 50),
                   successCount := s.successCount + (passStrips sp ((p :: l1).take 50)).length,
                   errorCount := s.errorCount + (failEntries sp ((p :: l1).take 50)).length,
                   errors := s.errors ++ failEntries sp ((p :: l1).take 50) } = s2
      have hcm : s2.committed = visible s ++ passStrips sp ((p :: l1).take 50) := by
        rw [← hg]
        simp [commitBatch, visible, List.append_assoc]
      have htd : s2.txDelete = false := by rw [← hg]; rfl
      have hst : s2.staged = [] := by rw [← hg]; rfl
      have hsc : s2.successCount = s.successCount + (passStrips sp ((p :: l1).take 50)).length := by
        rw [← hg]; rfl
      have hec : s2.errorCount = s.errorCount + (failEntries sp ((p :: l1).take 50)).length := by
        rw [← hg]; rfl
      have her : s2.errors = s.errors ++ failEntries sp ((p :: l1).take 50) := by
        rw [← hg]; rfl
      have hvis : visible s2 = visible s ++ passStrips sp ((p :: l1).take 50) := by
        rw [visible, htd, hst, hcm]
        simp
      by_cases hdr : (p :: l1).drop 50 = []
      · rw [hdr]
        simp only [batches, batchesAux, List.foldl_nil]
        have heta : s2 = { committed := s2.committed, txDelete := s2.txDelete,
                           staged := s2.staged, successCount := s2.successCount,
                           errorCount := s2.errorCount, errors := s2.errors } := rfl
        rw [heta, hcm, htd, hst, hsc, hec, her, hps, hfe, hdr]
        simp [passStrips, failEntries]
      · have hlen2 : ((p :: l1).drop 50).length ≤ n := by
          simp only [List.length_drop, List.length_cons]
          simp only [List.length_cons] at hlen
          omega
        have hnodup3 : ((visible s2 ++ passStrips sp ((p :: l1).drop 50)).map sp.key).Nodup := by
          rw [hvis, List.append_assoc]
          exact hnodup2
        rw [ih _ _ hlen2 hdr hnodup3]
        rw [hvis, hsc, hec, her, hps, hfe]
        simp [List.append_assoc, Nat.add_assoc, List.length_append]

/-- The dedup fold keeps a row list untouched when its rows are distinct. -/
theorem enumDedup_go {ρ : Type} [DecidableEq ρ] :
    ∀ (l acc : List (Nat × ρ)), (l.map Prod.snd).Nodup →
    (∀ x ∈ l, ∀ y ∈ acc, y.2 ≠ x.2) →
    l.foldl (fun acc2 p =>
      if acc2.any (fun q => decide (q.2 = p.2)) then acc2 else acc2 ++ [p]) acc = acc ++ l := by
  intro l
  induction l with
  | nil => intro acc _ _; simp
  | cons p l1 ih =>
    intro acc hnd hdisj
    have hnd1 : (l1.map Prod.snd).Nodup := (List.nodup_cons.mp (by simpa using hnd)).2
    have hnp : p.2 ∉ l1.map Prod.snd := (List.nodup_cons.mp (by simpa using hnd)).1
    have hany : (acc.any (fun q => decide (q.2 = p.2))) = false := by
      rw [List.any_eq_false]
      intro q hq
      simp only [decide_eq_true_eq]
      exact hdisj p (by simp) q hq
    have hd2 : ∀ x ∈ l1, ∀ y ∈ acc ++ [p], y.2 ≠ x.2 := by
      intro x hx y hy
      rcases List.mem_append.mp hy with hy1 | hy2
      · exact hdisj x (by simp [hx]) y hy1
      · have hyp : y = p := by simpa using hy2
        subst hyp
        intro hcon
        exact hnp (hcon ▸ List.mem_map_of_mem Prod.snd hx)
    rw [List.foldl_cons]
    simp only [hany, Bool.false_eq_true, if_false]
    rw [ih (acc ++ [p]) hnd1 hd2]
    simp

/-- On a source without exact duplicates, dedup keeps every indexed row. -/
theorem enumDedup_of_nodup {ρ : Type} [DecidableEq ρ] (rows : List ρ) (h : rows.Nodup) :
    enumDedup rows = rows.enum := by
  unfold enumDedup
  rw [enumDedup_go rows.enum [] (by rw [List.enum_map_snd]; exact h) (by simp)]
  simp

/-- A full sheet import whose passing rows have pairwise distinct keys:
the final table holds exactly the trimmed passing rows, the success count
is their number, and the failures are exactly the empty-required-field
entries. -/
theorem importRun_no_conflict {ρ : Type} [DecidableEq ρ] (sp : RowSpec ρ)
    (initial rows : List ρ) (hne0 : rows ≠ []) (hnd : rows.Nodup)
    (hkeys : ((passStrips sp rows.enum).map sp.key).Nodup) :
    (importRun sp initial rows).committed = passStrips sp rows.enum ∧
    (importRun sp initial rows).successCount = (passStrips sp rows.enum).length ∧
    (importRun sp initial rows).errorCount = (failEntries sp rows.enum).length ∧
    (importRun sp initial rows).errors = failEntries sp rows.enum := by
  unfold importRun
  rw [enumDedup_of_nodup rows hnd]
  have hne : rows.enum ≠ [] := by
    intro hcon
    have h2 := congrArg (List.map Prod.snd) hcon
    rw [List.enum_map_snd] at h2
    exact hne0 (by simpa using h2)
  have hn : ((visible ({ committed := initial, txDelete := true, staged := [],
                         successCount := 0, errorCount := 0,
                         errors := [] } : ImpState ρ) ++ passStrips sp rows.enum).map sp.key).Nodup := by
    have hv : visible ({ committed := initial, txDelete := true, staged := [],
                         successCount := 0, errorCount := 0,
                         errors := [] } : ImpState ρ) = [] := by
      simp [visible]
    rw [hv]
    simpa using hkeys
  rw [runBatches_no_conflict sp rows.enum.length rows.enum _ (Nat.le_refl _) hne hn]
  simp [visible]

/-- C9 amended: in the office importer a source row with any of the seven
required fields empty after trimming is recorded as an empty-required-field
failure (with its original 1-indexed row number) and is excluded from the
resulting table, while in the frandev importer only the three key columns
are checked this way (a row with empty content columns is imported, see the
counterexample); in both importers an empty-field row causes no session
operation, so when the source rows are distinct and the remaining rows
have pairwise distinct key triples, every remaining row is committed: the
final table is exactly the trimmed passing rows. -/
theorem C9_empty_required_field_handling
    (officeInit officeRows : List OfficeRow) (frandevInit frandevRows : List FrandevRow)
    (hone : officeRows ≠ []) (hond : officeRows.Nodup)
    (hokeys : ((passStrips officeSpec officeRows.enum).map officeSpec.key).Nodup)
    (hfne : frandevRows ≠ []) (hfnd : frandevRows.Nodup)
    (hfkeys : ((passStrips frandevSpec frandevRows.enum).map frandevSpec.key).Nodup) :
    ((import_office_sheet officeInit officeRows).committed =
        passStrips officeSpec officeRows.enum ∧
     (import_office_sheet officeInit officeRows).successCount =
        (passStrips officeSpec officeRows.enum).length ∧
     (import_office_sheet officeInit officeRows).errors =
        failEntries officeSpec officeRows.enum) ∧
    ((import_frandev_sheet frandevInit frandevRows).committed =
        passStrips frandevSpec frandevRows.enum ∧
     (import_frandev_sheet frandevInit frandevRows).successCount =
        (passStrips frandevSpec frandevRows.enum).length ∧
     (import_frandev_sheet frandevInit frandevRows).errors =
        failEntries frandevSpec frandevRows.enum) := by
  obtain ⟨h1, h2, _, h4⟩ :=
    importRun_no_conflict officeSpec officeInit officeRows hone hond hokeys
  obtain ⟨g1, g2, _, g4⟩ :=
    importRun_no_conflict frandevSpec frandevInit frandevRows hfne hfnd hfkeys
  exact ⟨⟨h1, h2, h4⟩, ⟨g1, g2, g4⟩⟩

/-- Witness for C9 amended: three-row office and frandev sheets, each with
one empty-key row in the middle. -/
theorem C9_empty_required_field_handling_witness :
    ((import_office_sheet [] c9OfficeRows).committed =
        passStrips officeSpec c9OfficeRows.enum ∧
     (import_office_sheet [] c9OfficeRows).successCount =
        (passStrips officeSpec c9OfficeRows.enum).length ∧
     (import_office_sheet [] c9OfficeRows).errors =
        failEntries officeSpec c9OfficeRows.enum) ∧
    ((import_frandev_sheet [] c9FrRows).committed =
        passStrips frandevSpec c9FrRows.enum ∧
     (import_frandev_sheet [] c9FrRows).successCount =
        (passStrips frandevSpec c9FrRows.enum).length ∧
     (import_frandev_sheet [] c9FrRows).errors =
        failEntries frandevSpec c9FrRows.enum) :=
  C9_empty_required_field_handling [] c9OfficeRows [] c9FrRows
    (by decide) (by decide) (by decide) (by decide) (by decide) (by decide)

/-- C9 counterexample: a frandev source row with empty `meta_title` and
`link_label` — both listed among the sheet's required columns — is imported
as a success and appears in the table, with no empty-required-fields
failure recorded, contrary to the claim. -/
theorem C9_frandev_empty_content_row_imported :
    c9FrRow.link_label = "" ∧ c9FrRow.meta_title = "" ∧
    (import_frandev_sheet [] [c9FrRow]).successCount = 1 ∧
    (import_frandev_sheet [] [c9FrRow]).errors = [] ∧
    (import_frandev_sheet [] [c9FrRow]).committed = [c9FrRow] := by decide

/-- The LIKE fuel is irrelevant once it dominates the combined length. -/
theorem likeMatchAux_congr (f1 : Nat) :
    ∀ (f2 : Nat) (ps cs : List Char), ps.length + cs.length < f1 →
    ps.length + cs.length < f2 → likeMatchAux f1 ps cs = likeMatchAux f2 ps cs := by
  induction f1 with
  | zero => intro f2 ps cs h1 _; omega
  | succ f ih =>
    intro f2 ps cs h1 h2
    cases f2 with
    | zero => omega
    | succ g =>
      cases ps with
      | nil => cases cs <;> rfl
      | cons p ps1 =>
        cases cs with
        | nil =>
          simp only [List.length_cons, List.length_nil] at h1 h2
          simp only [likeMatchAux]
          rw [ih g ps1 [] (by (try simp); all_goals omega) (by (try simp); all_goals omega)]
        | cons c cs1 =>
          simp only [List.length_cons] at h1 h2
          simp only [likeMatchAux]
          by_cases hp : p == '%'
          · rw [if_pos hp, if_pos hp]
            rw [ih g ps1 (c :: cs1) (by (try simp); all_goals omega) (by (try simp); all_goals omega)]
            rw [ih g (p :: ps1) cs1 (by (try simp); all_goals omega) (by (try simp); all_goals omega)]
          · by_cases hu : p == '_'
            · rw [if_neg hp, if_neg hp, if_pos hu, if_pos hu]
              rw [ih g ps1 cs1 (by omega) (by omega)]
            · rw [if_neg hp, if_neg hp, if_neg hu, if_neg hu]
              rw [ih g ps1 cs1 (by omega) (by omega)]

/-- Unfolding of LIKE matching on an empty string. -/
theorem likeMatchChars_cons_nil (p : Char) (ps : List Char) :
    likeMatchChars (p :: ps) [] = (p == '%' && likeMatchChars ps []) := rfl

/-- Unfolding of LIKE matching on a non-empty pattern and string. -/
theorem likeMatchChars_cons_cons (p : Char) (ps : List Char) (c : Char) (cs : List Char) :
    likeMatchChars (p :: ps) (c :: cs) =
      (if p == '%' then likeMatchChars ps (c :: cs) || likeMatchChars (p :: ps) cs
       else if p == '_' then likeMatchChars ps cs
       else p == c && likeMatchChars ps cs) := by
  show likeMatchAux ((p :: ps).length + (c :: cs).length + 1) (p :: ps) (c :: cs) = _
  simp only [likeMatchAux]
  by_cases hp : p == '%'
  · rw [if_pos hp, if_pos hp]
    unfold likeMatchChars
    rw [likeMatchAux_congr _ (ps.length + (c :: cs).length + 1) ps (c :: cs)
          (by simp) (by simp)]
    rw [likeMatchAux_congr _ ((p :: ps).length + cs.length + 1) (p :: ps) cs
          (by simp) (by simp)]
  · by_cases hu : p == '_'
    · rw [if_neg hp, if_neg hp, if_pos hu, if_pos hu]
      unfold likeMatchChars
      rw [likeMatchAux_congr _ (ps.length + cs.length + 1) ps cs
            (by simp; omega) (by simp)]
    · rw [if_neg hp, if_neg hp, if_neg hu, if_neg hu]
      unfold likeMatchChars
      rw [likeMatchAux_congr _ (ps.length + cs.length + 1) ps cs
            (by simp; omega) (by simp)]

/-- A lone wildcard matches every string. -/
theorem likeMatch_percent_only (cs : List Char) : likeMatchChars ['%'] cs = true := by
  induction cs with
  | nil => rfl
  | cons c cs1 ih => simp [likeMatchChars_cons_cons, ih]

/-- A wildcard-free pattern followed by the any-sequence wildcard matches
exactly the strings with that pattern as a prefix. -/
theorem likeMatch_prefix_chars (ps : List Char) (hps : ∀ c ∈ ps, c ≠ '%' ∧ c ≠ '_') :
    ∀ cs, likeMatchChars (ps ++ ['%']) cs = List.isPrefixOf ps cs := by
  induction ps with
  | nil =>
    intro cs
    simp [likeMatch_percent_only, List.isPrefixOf]
  | cons p ps1 ih =>
    intro cs
    have hp := hps p (by simp)
    have h1 : (p == '%') = false := beq_eq_false_iff_ne.mpr hp.1
    have h2 : (p == '_') = false := beq_eq_false_iff_ne.mpr hp.2
    cases cs with
    | nil =>
      simp [List.cons_append, likeMatchChars_cons_nil, List.isPrefixOf, h1]
    | cons c cs1 =>
      have ih2 := ih (fun d hd => hps d (by simp [hd])) cs1
      simp [List.cons_append, likeMatchChars_cons_cons, h1, h2, List.isPrefixOf, ih2]

/-- For a region token without SQL wildcard characters, the LIKE filter
pattern of the code coincides with the prefix match of the spec. -/
theorem likeMatch_eq_prefixOf (region t : String)
    (h : ∀ c ∈ region.data, c ≠ '%' ∧ c ≠ '_') :
    likeMatch (region ++ "/%") t = List.isPrefixOf (region ++ "/").data t.data := by
  unfold likeMatch
  have hdata : (region ++ "/%").data = (region ++ "/").data ++ ['%'] := by
    simp [String.data_append]
  rw [hdata]
  apply likeMatch_prefix_chars
  intro c hc
  rw [String.data_append] at hc
  rcases List.mem_append.mp hc with h1 | h2
  · exact h c h1
  · have hc2 : c = '/' := by simpa using h2
    subst hc2
    exact ⟨by decide, by decide⟩

/-- C7 counterexample: when the match set S is empty the response is the
404 error body, not the empty array that the otherwise-branch of the claim
asserts. -/
theorem C7_empty_match_404_not_array :
    prefixTripleMatches "tx" "a" "s" ⟨0, []⟩ = [] ∧
    get_service_info "tx" "a" "s" ⟨0, []⟩ =
      ApiResponse.errorBody 404 "Not Found"
        "No service found matching state: tx, area: a, service: s" ∧
    get_service_info "tx" "a" "s" ⟨0, []⟩ ≠ ApiResponse.pageArr [] := by decide

/-- C7 amended: for non-empty path tokens and a region without SQL LIKE
wildcard characters, letting S be the records whose combined token starts
with the region followed by the separator and whose area and service match
exactly: an empty S gives the 404 error body, a singleton S gives that
single page object, and an S with two or more elements gives the array of
all elements of S. -/
theorem C7_service_lookup_shapes
    (state_token area_served_token service_token : String) (db : OfficeDB)
    (hs : state_token ≠ "") (ha : area_served_token ≠ "") (hv : service_token ≠ "")
    (hw : ∀ c ∈ state_token.data, c ≠ '%' ∧ c ≠ '_') :
    (prefixTripleMatches state_token area_served_token service_token db = [] →
      get_service_info state_token area_served_token service_token db =
        ApiResponse.errorBody 404 "Not Found"
          ("No service found matching state: " ++ state_token
            ++ ", area: " ++ area_served_token
            ++ ", service: " ++ service_token)) ∧
    (∀ p, prefixTripleMatches state_token area_served_token service_token db = [p] →
      get_service_info state_token area_served_token service_token db =
        ApiResponse.pageObj p) ∧
    (2 ≤ (prefixTripleMatches state_token area_served_token service_token db).length →
      get_service_info state_token area_served_token service_token db =
        ApiResponse.pageArr (prefixTripleMatches state_token area_served_token service_token db)) := by
  have hfilter : db.pages.filter (fun p =>
      likeMatch (state_token ++ "/%") p.state_office_token &&
      p.area_served_token == area_served_token &&
      p.service_token == service_token) =
      prefixTripleMatches state_token area_served_token service_token db := by
    unfold prefixTripleMatches
    apply List.filter_congr
    intro p _
    rw [likeMatch_eq_prefixOf _ _ hw]
  have hmain : get_service_info state_token area_served_token service_token db =
      match prefixTripleMatches state_token area_served_token service_token db with
      | [] =>
        ApiResponse.errorBody 404 "Not Found"
          ("No service found matching state: " ++ state_token
            ++ ", area: " ++ area_served_token
            ++ ", service: " ++ service_token)
      | [p] => ApiResponse.pageObj p
      | ps => ApiResponse.pageArr ps := by
    unfold get_service_info
    rw [if_neg (by simp [hs, ha, hv]), hfilter]
  refine ⟨?_, ?_, ?_⟩
  · intro h0
    rw [hmain, h0]
  · intro p hp
    rw [hmain, hp]
  · intro hlen
    cases hS : prefixTripleMatches state_token area_served_token service_token db with
    | nil => rw [hS] at hlen; simp at hlen
    | cons p1 rest =>
      cases rest with
      | nil => rw [hS] at hlen; simp at hlen
      | cons p2 rest2 => rw [hmain, hS]

/-- Witness for C7 amended at a database with two matching records. -/
theorem C7_service_lookup_shapes_witness :
    2 ≤ (prefixTripleMatches "tx" "mid" "care" c7DB).length ∧
    get_service_info "tx" "mid" "care" c7DB =
      ApiResponse.pageArr (prefixTripleMatches "tx" "mid" "care" c7DB) :=
  ⟨by decide,
   (C7_service_lookup_shapes "tx" "mid" "care" c7DB
      (by decide) (by decide) (by decide) (by decide)).2.2 (by decide)⟩
